import Mathlib

/-!
Shallow embedding of `src/ext/ebur128control/ebur128control.cpp` (the
EBU R 128 loudness-control GStreamer element of the Strawberry player).

Modelling conventions:
* `gdouble` values (loudness, target level, volume) are modelled as real
  numbers; the data-path definitions are generic in the sample type `α`
  so that concrete witnesses can be evaluated over `ℤ`.
* The stored function pointer `committed_params.process` is modelled by
  the tagged variant `Kernel` (`null` for `nullptr`, `float32` for
  `process<gfloat>`, `float64` for `process<gdouble>`); invoking a null
  pointer is modelled as the absence of a result (`Option.none`).
* `g_assert` failure (abort) is likewise modelled as `Option.none`.
* A mapped `GstBuffer` is modelled at sample granularity as a list of
  samples of the negotiated width together with its GAP flag; the byte
  granular view of the numeric kernel is modelled separately below
  (`kernelBytesIter`) for the memory-footprint analysis.
-/

namespace Ebur128Control

/-- The `_EBUR128Control::Properties` struct: the raw user configuration
(`integrated_loudness_lufs`, `target_level_lufs`, both `gdouble`). -/
structure Properties where
  integrated_loudness_lufs : ℝ
  target_level_lufs : ℝ

/-- The `_EBUR128Control::XFormedProperties` struct, generic over the type
used for the `gdouble` field `volume`.  Note: the source's `operator==`
additionally names a field `perform_loudness_normalization` that does not
exist in this variant's struct definition; equality is over the two fields
that the struct actually has. -/
structure XFormedProperties (α : Type) where
  volume : α
  passthrough : Bool
deriving DecidableEq

/-- `constexpr double mute_volume = 0.0`. -/
def mute_volume {α : Type} [Zero α] : α := 0

/-- `constexpr double neutral_volume = 1.0`. -/
def neutral_volume {α : Type} [One α] : α := 1

/-- The function pointer `void (*process)(EBUR128Control *, gpointer, guint)`,
modelled as a tagged variant: `nullptr`, `process<gfloat>` or
`process<gdouble>`. -/
inductive Kernel : Type where
  | null : Kernel
  | float32 : Kernel
  | float64 : Kernel
deriving DecidableEq

/-- The sample width `sizeof(T)` of the kernel instantiation: 4 bytes for
`gfloat`, 8 bytes for `gdouble`; a null pointer has no width (calling it
is a crash). -/
def Kernel.width : Kernel → Option ℕ
  | .null => none
  | .float32 => some 4
  | .float64 => some 8

/-- The `_EBUR128Control::Params` struct (`committed_params`). -/
structure Params (α : Type) where
  p : XFormedProperties α
  process : Kernel
  negotiated : Bool
deriving DecidableEq

/-! ## The numeric kernel `process<T>`, sample-level view

The loop body `*data++ *= vol;` at iteration `i` performs
`data[i] = data[i] * vol`. -/

/-- One loop iteration of `process<T>`: `data[i] *= vol` (a store to an
index outside the array leaves the list unchanged; the in-bounds analysis
is done separately at byte granularity). -/
def storeMul {α : Type} [Mul α] (vol : α) (data : List α) (i : ℕ) : List α :=
  match data.get? i with
  | some x => data.set i (x * vol)
  | none => data

/-- The first `k` iterations of the loop in `process<T>`, in program
order. -/
def processIter {α : Type} [Mul α] (vol : α) (data : List α) : ℕ → List α
  | 0 => data
  | k + 1 => storeMul vol (processIter vol data k) k

/-- `process<T>`: `num_samples = n_bytes / sizeof(T)` loop iterations,
each multiplying one sample in place by `vol`. -/
def process {α : Type} [Mul α] (vol : α) (data : List α) (n_bytes w : ℕ) : List α :=
  processIter vol data (n_bytes / w)

/-! ## The per-buffer hot path `transform_ip` -/

/-- The subset of `GstFlowReturn` values this element produces. -/
inductive GstFlowReturn : Type where
  | ok : GstFlowReturn
  | not_negotiated : GstFlowReturn
deriving DecidableEq

/-- A mapped `GstBuffer`: the byte span viewed as samples of the
negotiated width, plus the `GST_BUFFER_FLAG_GAP` flag.  The byte length
`map.size` is `width * data.length`. -/
structure GstBuffer (α : Type) where
  data : List α
  gap : Bool
deriving DecidableEq

/-- `transform_ip`: the per-buffer state machine.  `none` models the crash
that calling a null `process` pointer would be; otherwise the result is
the `GstFlowReturn` and the buffer after the call.  (The source's
`g_assert(!gst_base_transform_is_passthrough(base))` is a precondition
guaranteed by the pipeline, since `transform_ip_on_passthrough` is
`false`.) -/
def transform_ip {α : Type} [Mul α] [Zero α] [One α] [DecidableEq α]
    (self : Params α) (outbuf : GstBuffer α) :
    Option (GstFlowReturn × GstBuffer α) :=
  if !self.negotiated then
    -- GST_ELEMENT_ERROR(..., "No format was negotiated"); return GST_FLOW_NOT_NEGOTIATED
    some (.not_negotiated, outbuf)
  else if outbuf.gap then
    -- Don't process data with GAP.
    some (.ok, outbuf)
  else if self.p.volume = mute_volume then
    -- memset(map.data, 0, map.size); GST_BUFFER_FLAG_SET(outbuf, GST_BUFFER_FLAG_GAP)
    some (.ok, { data := List.replicate outbuf.data.length 0, gap := true })
  else if self.p.volume ≠ neutral_volume then
    -- self->committed_params.process(self, map.data, map.size)
    self.process.width.map fun w =>
      (.ok, { outbuf with
                data := process self.p.volume outbuf.data (w * outbuf.data.length) w })
  else
    some (.ok, outbuf)

/-! ## Negotiation: `commit_params`, `setup`, `before_transform` -/

/-- The negotiated sample format (`GST_AUDIO_INFO_FORMAT(info)`): the two
float formats the switch recognises, and everything else (`other`, with a
tag distinguishing the many non-float `GstAudioFormat` values). -/
inductive GstAudioFormat : Type where
  | F32 : GstAudioFormat
  | F64 : GstAudioFormat
  | other : ℕ → GstAudioFormat
deriving DecidableEq

/-- `commit_params`: starts from `process = nullptr`, `negotiated = false`,
copies the latest `xformed_properties` into `committed_params.p`, then
switches on the sample format.  The `default:` branch executes
`g_assert(self->committed_params.p.passthrough)`: an assertion failure
(abort) is modelled as `none`.  When the function returns, it has
unconditionally set `negotiated = true`.  (The call to
`gst_base_transform_set_passthrough` is a pipeline side effect carrying
`p.passthrough`, not tracked in the returned state.) -/
def commit_params {α : Type} (xformed_properties : XFormedProperties α)
    (info : GstAudioFormat) : Option (Params α) :=
  let cp : Params α :=
    { p := xformed_properties, process := .null, negotiated := false }
  match info with
  | .F32 => some { cp with process := .float32, negotiated := true }
  | .F64 => some { cp with process := .float64, negotiated := true }
  | .other _ =>
      if cp.p.passthrough then some { cp with negotiated := true } else none

/-- `setup`: runs `commit_params` on the incoming format; reports
`GST_ELEMENT_ERROR(..., "Invalid incoming format")` and returns `false`
when `negotiated` is still `false` afterwards.  The result pairs the
committed state with the returned `gboolean`. -/
def setup {α : Type} (xformed_properties : XFormedProperties α)
    (info : GstAudioFormat) : Option (Params α × Bool) :=
  (commit_params xformed_properties info).map fun cp => (cp, cp.negotiated)

/-- `before_transform`: re-runs `commit_params` exactly when the committed
snapshot differs from the latest `xformed_properties` (read without the
object lock, see the race model below).  The second component records
whether `commit_params` was invoked (the renegotiation work). -/
def before_transform {α : Type} [DecidableEq α] (committed_params' : Params α)
    (xformed_properties : XFormedProperties α) (info : GstAudioFormat) :
    Option (Params α) × Bool :=
  if committed_params'.p ≠ xformed_properties then
    (commit_params xformed_properties info, true)
  else
    (some committed_params', false)

/-! ## The gain computation `xform_properties` (GainComputer) -/

/-- The lambda `computeGain_dB` inside `xform_properties`. -/
def computeGain_dB (source_dB target_dB : ℝ) : ℝ :=
  target_dB - source_dB

/-- The lambda `dB_to_mult` inside `xform_properties`:
`std::pow(10., gain_dB / 20.)`. -/
noncomputable def dB_to_mult (gain_dB : ℝ) : ℝ :=
  (10 : ℝ) ^ (gain_dB / 20)

/-- `xform_properties`: derives `{volume, passthrough}` from the raw
properties.  (The initial assignments `p.volume = mute_volume;
p.passthrough = false;` are dead stores, overwritten below.) -/
noncomputable def xform_properties (properties : Properties) :
    XFormedProperties ℝ :=
  let loudness_normalizing_gain_db :=
    computeGain_dB properties.integrated_loudness_lufs
      properties.target_level_lufs
  let volume := dB_to_mult loudness_normalizing_gain_db
  { volume := volume, passthrough := decide (volume = neutral_volume) }

/-! ## The property setter `set_property` (ParameterStore) -/

/-- The `Properties` enum used as GObject property ids; ids other than the
two registered ones hit the `default:` warning branch. -/
inductive PropId : Type where
  | IntegratedLoudness : PropId
  | TargetLevel : PropId
  | invalid : ℕ → PropId
deriving DecidableEq

/-- The control-context state: the raw properties plus the cached derived
snapshot, both fields of the element struct guarded by
`GST_OBJECT_LOCK`. -/
structure ControlState where
  properties : Properties
  xformed_properties : XFormedProperties ℝ

/-- `set_property`: under `GST_OBJECT_LOCK`, updates the addressed raw
property, recomputes the derived snapshot, stores it, and (after
unlocking) calls `gst_base_transform_reconfigure_sink` exactly when the
new snapshot's `passthrough` differs from the previously stored one.  The
second component of the result is whether `reconfigure_sink` was
raised.  An invalid property id warns and returns without touching the
state. -/
noncomputable def set_property (self : ControlState) (prop_id : PropId)
    (value : ℝ) : ControlState × Bool :=
  match prop_id with
  | .invalid _ => (self, false)
  | .IntegratedLoudness =>
      let properties :=
        { self.properties with integrated_loudness_lufs := value }
      let new_xformed_properties := xform_properties properties
      let should_reconfigure_sink :=
        new_xformed_properties.passthrough !=
          self.xformed_properties.passthrough
      ({ properties := properties,
         xformed_properties := new_xformed_properties },
       should_reconfigure_sink)
  | .TargetLevel =>
      let properties :=
        { self.properties with target_level_lufs := value }
      let new_xformed_properties := xform_properties properties
      let should_reconfigure_sink :=
        new_xformed_properties.passthrough !=
          self.xformed_properties.passthrough
      ({ properties := properties,
         xformed_properties := new_xformed_properties },
       should_reconfigure_sink)

/-- `ebur128control_init`: the initial control-context state
(`integrated_loudness_lufs = -23.0`, `target_level_lufs = -23.0`,
`volume = neutral_volume`, `passthrough = true`). -/
def ebur128control_init_control : ControlState :=
  { properties :=
      { integrated_loudness_lufs := -23, target_level_lufs := -23 },
    xformed_properties := { volume := neutral_volume, passthrough := true } }

/-- `ebur128control_init`: the initial committed parameters
(`p` copied from the initial snapshot, `process = nullptr`,
`negotiated = false`). -/
def ebur128control_init_committed : Params ℝ :=
  { p := { volume := neutral_volume, passthrough := true },
    process := .null, negotiated := false }

/-! ## Byte-granular view of `process<T>`

`process<T>` walks `gpointer bytes` as `T *data`; loop iteration `i`
accesses exactly the bytes of sample `i`, i.e. offsets
`[i * sizeof(T), (i+1) * sizeof(T))`.  To analyse the memory footprint we
re-express the same loop over the raw byte list: the per-sample
load/multiply/store is abstracted as a width-preserving chunk transform
`tf` (the float decode, multiply, encode), and iteration `i` rewrites the
`w` bytes at offset `i * w` with `tf` of those bytes. -/

/-- Loop iteration `i` of `process<T>` at byte granularity. -/
def chunkUpd (tf : List ℕ → List ℕ) (w : ℕ) (buf : List ℕ) (i : ℕ) :
    List ℕ :=
  buf.take (i * w) ++ tf ((buf.drop (i * w)).take w) ++ buf.drop (i * w + w)

/-- The first `k` byte-granular loop iterations of `process<T>`, in
program order. -/
def kernelBytesIter (tf : List ℕ → List ℕ) (w : ℕ) (buf : List ℕ) :
    ℕ → List ℕ
  | 0 => buf
  | k + 1 => chunkUpd tf w (kernelBytesIter tf w buf k) k

/-- `process<T>` at byte granularity: `num_samples = n_bytes / sizeof(T)`
iterations over the byte list `buf` (of length `≥ n_bytes`). -/
def processBytes (tf : List ℕ → List ℕ) (w : ℕ) (buf : List ℕ)
    (n_bytes : ℕ) : List ℕ :=
  kernelBytesIter tf w buf (n_bytes / w)

/-! ## Interleaving model of the parameter exchange

`set_property` stores the freshly derived snapshot into
`self->xformed_properties` while holding `GST_OBJECT_LOCK`; the struct
assignment is not atomic, so it is modelled as two field stores (volume,
then passthrough).  The processing-context snapshot read
(`before_transform` line 185 and `commit_params` line 153) copies
`self->xformed_properties` without taking any lock, modelled as two field
loads.  A schedule is the list of which context performs its next step;
a context with no step left (or blocked on the lock) makes the whole run
infeasible (`none`). -/

/-- The two execution contexts. -/
inductive Ctx : Type where
  | control : Ctx
  | processing : Ctx
deriving DecidableEq

/-- A configuration of the two-context system: the shared
`xformed_properties` field, whether `GST_OBJECT_LOCK` is held, the two
program counters, and the reader's local copy so far. -/
structure RaceState where
  shared : XFormedProperties ℝ
  lockHeld : Bool
  writerPC : ℕ
  readerPC : ℕ
  readVol : Option ℝ
  readPass : Option Bool

/-- One step of the control context running the store part of
`set_property` with new snapshot `new`: acquire `GST_OBJECT_LOCK`, store
`volume`, store `passthrough`, release the lock. -/
def writerStep (new : XFormedProperties ℝ) (s : RaceState) :
    Option RaceState :=
  match s.writerPC with
  | 0 => if s.lockHeld then none
         else some { s with lockHeld := true, writerPC := 1 }
  | 1 => some { s with
                  shared := { s.shared with volume := new.volume },
                  writerPC := 2 }
  | 2 => some { s with
                  shared := { s.shared with passthrough := new.passthrough },
                  writerPC := 3 }
  | 3 => some { s with lockHeld := false, writerPC := 4 }
  | _ => none

/-- One step of the processing context running the snapshot read of
`before_transform`: load `volume`, load `passthrough` — with no lock
acquisition, exactly as in the source. -/
def readerStep (s : RaceState) : Option RaceState :=
  match s.readerPC with
  | 0 => some { s with readVol := some s.shared.volume, readerPC := 1 }
  | 1 => some { s with readPass := some s.shared.passthrough, readerPC := 2 }
  | _ => none

/-- One step of the chosen context. -/
def raceStep (new : XFormedProperties ℝ) (who : Ctx) (s : RaceState) :
    Option RaceState :=
  match who with
  | .control => writerStep new s
  | .processing => readerStep s

/-- Run a schedule from a configuration. -/
def raceRun (new : XFormedProperties ℝ) : List Ctx → RaceState →
    Option RaceState
  | [], s => some s
  | who :: rest, s => (raceStep new who s).bind (raceRun new rest)

/-- The initial configuration: the shared field holds the previous
snapshot `old`, the lock is free, nothing has been read. -/
def raceInit (old : XFormedProperties ℝ) : RaceState :=
  { shared := old, lockHeld := false, writerPC := 0, readerPC := 0,
    readVol := none, readPass := none }

/-- The `DerivedParameters` pair the processing context observed, once it
has read both fields. -/
def observed (s : RaceState) : Option (XFormedProperties ℝ) :=
  match s.readVol, s.readPass with
  | some v, some b => some { volume := v, passthrough := b }
  | _, _ => none

/-! ## Helper lemmas: the sample-level kernel -/

theorem storeMul_length {α : Type} [Mul α] (vol : α) (data : List α)
    (i : ℕ) : (storeMul vol data i).length = data.length := by
  unfold storeMul
  cases h : data.get? i <;> simp

theorem storeMul_get? {α : Type} [Mul α] (vol : α) (data : List α)
    (i j : ℕ) :
    (storeMul vol data i).get? j =
      if j = i then (data.get? i).map (· * vol) else data.get? j := by
  unfold storeMul
  cases h : data.get? i with
  | none =>
      by_cases hj : j = i
      · subst hj; rw [if_pos rfl, h]; rfl
      · rw [if_neg hj]
  | some x =>
      by_cases hj : j = i
      · subst hj
        rw [if_pos rfl, List.get?_set_eq, h]
        rfl
      · rw [if_neg hj]
        exact List.get?_set_ne _ _ fun hij => hj hij.symm

theorem processIter_length {α : Type} [Mul α] (vol : α) (data : List α)
    (k : ℕ) : (processIter vol data k).length = data.length := by
  induction k with
  | zero => rfl
  | succ k ih =>
      show (storeMul vol (processIter vol data k) k).length = _
      rw [storeMul_length, ih]

theorem processIter_get? {α : Type} [Mul α] (vol : α) (data : List α)
    (k j : ℕ) :
    (processIter vol data k).get? j =
      if j < k then (data.get? j).map (· * vol) else data.get? j := by
  induction k with
  | zero => simp [processIter]
  | succ k ih =>
      show (storeMul vol (processIter vol data k) k).get? j = _
      rw [storeMul_get?]
      by_cases hj : j = k
      · subst hj
        rw [if_pos rfl, ih, if_neg (lt_irrefl j), if_pos (Nat.lt_succ_self j)]
      · rw [if_neg hj, ih]
        by_cases hjk : j < k
        · rw [if_pos hjk, if_pos (Nat.lt_succ_of_lt hjk)]
        · rw [if_neg hjk, if_neg (by omega)]

theorem processIter_full {α : Type} [Mul α] (vol : α) (data : List α) :
    processIter vol data data.length = data.map (· * vol) := by
  apply List.ext_get?
  intro j
  rw [processIter_get?, List.get?_map]
  by_cases hj : j < data.length
  · rw [if_pos hj]
  · rw [if_neg hj, List.get?_eq_none.mpr (le_of_not_lt hj)]
    rfl

/-- Over a whole buffer of `data.length` samples of width `w`
(`n_bytes = w * data.length`), `process<T>` is exactly the pointwise
multiplication by `vol`. -/
theorem process_full {α : Type} [Mul α] (vol : α) (data : List α) {w : ℕ}
    (hw : 0 < w) :
    process vol data (w * data.length) w = data.map (· * vol) := by
  unfold process
  rw [Nat.mul_div_cancel_left _ hw]
  exact processIter_full vol data

/-! ## Helper lemmas: the byte-granular kernel -/

theorem flatten_chunks_length (f : ℕ → List ℕ) (w k : ℕ)
    (hf : ∀ i, i < k → (f i).length = w) :
    ((List.range k).map f).flatten.length = k * w := by
  induction k with
  | zero => simp
  | succ k ih =>
      rw [List.range_succ, List.map_append, List.flatten_append,
        List.length_append]
      simp only [List.map_cons, List.map_nil, List.flatten_cons,
        List.flatten_nil, List.append_nil]
      rw [ih fun i hi => hf i (Nat.lt_succ_of_lt hi),
        hf k (Nat.lt_succ_self k), Nat.succ_mul]

theorem kernelBytesIter_eq (tf : List ℕ → List ℕ) (w : ℕ) (buf : List ℕ)
    (htf : ∀ c : List ℕ, c.length = w → (tf c).length = w) (k : ℕ)
    (hk : k * w ≤ buf.length) :
    kernelBytesIter tf w buf k =
      ((List.range k).map fun i => tf ((buf.drop (i * w)).take w)).flatten
        ++ buf.drop (k * w) := by
  induction k with
  | zero => simp [kernelBytesIter]
  | succ k ih =>
      have hkw : k * w ≤ buf.length :=
        le_trans (Nat.mul_le_mul_right w (Nat.le_succ k)) hk
      have hchunk : ∀ i, i < k + 1 → ((buf.drop (i * w)).take w).length = w := by
        intro i hi
        have h1 : (i + 1) * w ≤ (k + 1) * w :=
          Nat.mul_le_mul_right w (Nat.succ_le_succ (Nat.le_of_lt_succ hi))
        have h2 : i * w + w ≤ buf.length := by
          rw [← Nat.succ_mul]; exact le_trans h1 hk
        rw [List.length_take, List.length_drop]
        omega
      have lenA :
          (((List.range k).map fun i =>
            tf ((buf.drop (i * w)).take w)).flatten).length = k * w :=
        flatten_chunks_length _ w k fun i hi =>
          htf _ (hchunk i (Nat.lt_succ_of_lt hi))
      show chunkUpd tf w (kernelBytesIter tf w buf k) k = _
      rw [ih hkw]
      unfold chunkUpd
      rw [List.take_left' lenA, List.drop_left' lenA,
        ← List.drop_drop, List.drop_left' lenA, List.drop_drop,
        List.range_succ, List.map_append, List.flatten_append]
      simp only [List.map_cons, List.map_nil, List.flatten_cons,
        List.flatten_nil, List.append_nil, Nat.succ_mul]

/-- `process<T>` over a byte span of `n_bytes` bytes rewrites exactly the
first `⌊n_bytes / w⌋` complete `w`-byte samples, chunk by chunk, and
leaves every byte from offset `⌊n_bytes / w⌋ * w` on unchanged. -/
theorem processBytes_eq (tf : List ℕ → List ℕ) (w : ℕ) (buf : List ℕ)
    (n : ℕ)
    (htf : ∀ c : List ℕ, c.length = w → (tf c).length = w)
    (hn : n ≤ buf.length) :
    processBytes tf w buf n =
      ((List.range (n / w)).map fun i =>
        tf ((buf.drop (i * w)).take w)).flatten
        ++ buf.drop (n / w * w) :=
  kernelBytesIter_eq tf w buf htf (n / w)
    (le_trans (Nat.div_mul_le_self n w) hn)

/-! ## Claim theorems -/

/-- Claim C5: for every negotiated state and every buffer whose GAP flag
is already set, `transform_ip` returns `GST_FLOW_OK` and leaves the
buffer entirely unchanged, regardless of the committed gain value
(including `gain == 0.0`, since the gap check precedes the mute
check). -/
theorem claim_C5_gap_buffer_untouched {α : Type} [Mul α] [Zero α] [One α]
    [DecidableEq α] (self : Params α) (outbuf : GstBuffer α)
    (hneg : self.negotiated = true) (hgap : outbuf.gap = true) :
    transform_ip self outbuf = some (.ok, outbuf) := by
  unfold transform_ip
  rw [hneg, hgap]
  simp

/-- Witness for C5, with the committed gain equal to `0.0`. -/
theorem claim_C5_gap_buffer_untouched_witness :
    transform_ip (α := ℤ)
      { p := { volume := 0, passthrough := false },
        process := .float32, negotiated := true }
      { data := [5, 7], gap := true } =
      some (.ok, { data := [5, 7], gap := true }) :=
  claim_C5_gap_buffer_untouched _ _ rfl rfl

/-- Claim C7: for every state with `negotiated == false` and every buffer,
`transform_ip` fails with `GST_FLOW_NOT_NEGOTIATED` and performs no
partial processing: the buffer's samples and GAP flag are returned
unchanged. -/
theorem claim_C7_not_negotiated_error {α : Type} [Mul α] [Zero α] [One α]
    [DecidableEq α] (self : Params α) (outbuf : GstBuffer α)
    (hneg : self.negotiated = false) :
    transform_ip self outbuf = some (.not_negotiated, outbuf) := by
  unfold transform_ip
  rw [hneg]
  simp

/-- Witness for C7. -/
theorem claim_C7_not_negotiated_error_witness :
    transform_ip (α := ℤ)
      { p := { volume := 2, passthrough := false },
        process := .null, negotiated := false }
      { data := [3], gap := false } =
      some (.not_negotiated, { data := [3], gap := false }) :=
  claim_C7_not_negotiated_error _ _ rfl

/-- Claim C4: for every negotiated state with `gain == 0.0` and every
non-empty buffer not tagged as a gap, `transform_ip` overwrites the whole
buffer with zeroes, sets the GAP flag, and returns `GST_FLOW_OK`. -/
theorem claim_C4_mute_zero_fills {α : Type} [Mul α] [Zero α] [One α]
    [DecidableEq α] (self : Params α) (outbuf : GstBuffer α)
    (hneg : self.negotiated = true) (hgap : outbuf.gap = false)
    (hvol : self.p.volume = mute_volume) (hne : outbuf.data ≠ []) :
    transform_ip self outbuf =
      some (.ok, { data := List.replicate outbuf.data.length 0,
                   gap := true }) := by
  unfold transform_ip
  rw [hneg, hgap, hvol]
  simp

/-- Witness for C4. -/
theorem claim_C4_mute_zero_fills_witness :
    transform_ip (α := ℤ)
      { p := { volume := 0, passthrough := false },
        process := .float64, negotiated := true }
      { data := [3, 4, 5], gap := false } =
      some (.ok, { data := [0, 0, 0], gap := true }) :=
  claim_C4_mute_zero_fills _ _ rfl rfl rfl (by decide)

/-- Claim C3: for every negotiated state whose gain is neither `0.0` nor
`1.0` and every non-gap buffer, `transform_ip` dispatches to the selected
kernel (of some width `w`, 4 for Float32 or 8 for Float64), which
multiplies each of the buffer's `byteLength / w` samples in place by the
gain, leaving the buffer length and GAP flag unchanged; in particular a
buffer of `N` samples all holding `v` comes back with every sample equal
to `v * gain`. -/
theorem claim_C3_kernel_multiplies_in_place {α : Type} [Mul α] [Zero α]
    [One α] [DecidableEq α] (self : Params α) (outbuf : GstBuffer α)
    (w : ℕ) (hneg : self.negotiated = true) (hgap : outbuf.gap = false)
    (hw : self.process.width = some w)
    (h0 : self.p.volume ≠ mute_volume)
    (h1 : self.p.volume ≠ neutral_volume) :
    transform_ip self outbuf =
      some (.ok, { data := outbuf.data.map (· * self.p.volume),
                   gap := false }) ∧
    (outbuf.data.map (· * self.p.volume)).length = outbuf.data.length ∧
    ∀ (N : ℕ) (v : α), outbuf.data = List.replicate N v →
      outbuf.data.map (· * self.p.volume) =
        List.replicate N (v * self.p.volume) := by
  have hwpos : 0 < w := by
    cases hp : self.process <;> rw [hp] at hw <;>
      simp [Kernel.width] at hw <;> omega
  refine ⟨?_, List.length_map _ _, ?_⟩
  · unfold transform_ip
    simp only [hneg, Bool.not_true, Bool.false_eq_true, if_false, hgap,
      if_neg h0, if_pos h1, hw, Option.map_some']
    rw [process_full self.p.volume outbuf.data hwpos]
  · intro N v hdata
    rw [hdata, List.map_replicate]

/-- Witness for C3: a 3-sample buffer of constant value `5` under gain
`2` becomes constant `10`. -/
theorem claim_C3_kernel_multiplies_in_place_witness :
    transform_ip (α := ℤ)
      { p := { volume := 2, passthrough := false },
        process := .float32, negotiated := true }
      { data := [5, 5, 5], gap := false } =
      some (.ok, { data := [10, 10, 10], gap := false }) := by
  have h := claim_C3_kernel_multiplies_in_place (α := ℤ)
    { p := { volume := 2, passthrough := false },
      process := .float32, negotiated := true }
    { data := [5, 5, 5], gap := false } 4 rfl rfl rfl
    (by decide) (by decide)
  rw [h.1]
  decide

/-- Claim C6: `before_transform` is a no-op (it neither changes the
committed state nor invokes `commit_params`) exactly when the committed
snapshot equals the latest derived snapshot, and re-runs `commit_params`
exactly when the two differ. -/
theorem claim_C6_commit_idempotent {α : Type} [DecidableEq α]
    (committed : Params α) (latest : XFormedProperties α)
    (info : GstAudioFormat) :
    (committed.p = latest →
      before_transform committed latest info = (some committed, false)) ∧
    (committed.p ≠ latest →
      before_transform committed latest info =
        (commit_params latest info, true)) := by
  constructor <;> intro h <;> unfold before_transform <;> simp [h]

/-- Witness for C6: the equal-snapshot case is a no-op, the differing
case renegotiates. -/
theorem claim_C6_commit_idempotent_witness :
    before_transform (α := ℤ)
      { p := { volume := 2, passthrough := false },
        process := .float32, negotiated := true }
      { volume := 2, passthrough := false } .F32 =
      (some { p := { volume := 2, passthrough := false },
              process := .float32, negotiated := true }, false) ∧
    before_transform (α := ℤ)
      { p := { volume := 2, passthrough := false },
        process := .float32, negotiated := true }
      { volume := 3, passthrough := false } .F32 =
      (commit_params (α := ℤ) { volume := 3, passthrough := false } .F32,
       true) :=
  ⟨(claim_C6_commit_idempotent _ _ _).1 rfl,
   (claim_C6_commit_idempotent _ _ _).2 (by decide)⟩

/-- Claim C1 (divergence): `commit_params` selects the `Float32` kernel
for F32 input and the `Float64` kernel for F64 input, and accepts any
other format with no kernel when the snapshot's `passthrough` is true;
but for any other format with `passthrough == false` it does NOT produce
a `CommittedState` with `negotiated == false` — it hits
`g_assert(self->committed_params.p.passthrough)` and aborts (`none`).
Moreover every state `commit_params` does return has `negotiated == true`,
so the `!negotiated` NegotiationError report in `setup` is unreachable. -/
theorem claim_C1_nonfloat_asserts_instead_of_failing {α : Type}
    (x : XFormedProperties α) (t : ℕ) :
    commit_params x .F32 =
      some { p := x, process := .float32, negotiated := true } ∧
    commit_params x .F64 =
      some { p := x, process := .float64, negotiated := true } ∧
    (x.passthrough = true →
      commit_params x (.other t) =
        some { p := x, process := .null, negotiated := true }) ∧
    (x.passthrough = false → commit_params x (.other t) = none) ∧
    (x.passthrough = false → setup x (.other t) = none) ∧
    ∀ (info : GstAudioFormat) (cp : Params α),
      commit_params x info = some cp → cp.negotiated = true := by
  refine ⟨rfl, rfl, ?_, ?_, ?_, ?_⟩
  · intro h
    simp [commit_params, h]
  · intro h
    simp [commit_params, h]
  · intro h
    simp [setup, commit_params, h]
  · intro info cp hcp
    cases info with
    | F32 =>
        simp only [commit_params, Option.some.injEq] at hcp
        subst hcp; rfl
    | F64 =>
        simp only [commit_params, Option.some.injEq] at hcp
        subst hcp; rfl
    | other t' =>
        simp only [commit_params] at hcp
        by_cases h : x.passthrough = true
        · simp only [h] at hcp
          rw [if_true, Option.some.injEq] at hcp
          subst hcp; rfl
        · rw [Bool.not_eq_true] at h
          rw [h] at hcp
          simp at hcp

/-- Witness for C1: the failing input — a non-float format while the
derived snapshot is non-passthrough (gain 2.0). -/
theorem claim_C1_nonfloat_asserts_instead_of_failing_witness :
    commit_params (α := ℤ) { volume := 2, passthrough := false }
      (.other 0) = none ∧
    setup (α := ℤ) { volume := 2, passthrough := false } (.other 0) =
      none ∧
    commit_params (α := ℤ) { volume := 2, passthrough := false } .F32 =
      some { p := { volume := 2, passthrough := false },
             process := .float32, negotiated := true } :=
  ⟨(claim_C1_nonfloat_asserts_instead_of_failing (α := ℤ)
      { volume := 2, passthrough := false } 0).2.2.2.1 rfl,
   (claim_C1_nonfloat_asserts_instead_of_failing (α := ℤ)
      { volume := 2, passthrough := false } 0).2.2.2.2.1 rfl,
   (claim_C1_nonfloat_asserts_instead_of_failing (α := ℤ)
      { volume := 2, passthrough := false } 0).1⟩

/-- Claim C2: `xform_properties` returns
`gain = 10 ^ ((target − loudness) / 20)`, `passthrough` is exactly the
test `gain == 1.0`, and when `loudness == target` the zero exponent makes
the gain exactly `1.0` and `passthrough` true. -/
theorem claim_C2_gain_formula (l t : ℝ) :
    (xform_properties ⟨l, t⟩).volume = (10 : ℝ) ^ ((t - l) / 20) ∧
    ((xform_properties ⟨l, t⟩).passthrough = true ↔
      (xform_properties ⟨l, t⟩).volume = 1) ∧
    (l = t →
      (xform_properties ⟨l, t⟩).volume = 1 ∧
      (xform_properties ⟨l, t⟩).passthrough = true) := by
  refine ⟨rfl, ?_, ?_⟩
  · show decide (dB_to_mult (computeGain_dB l t) = neutral_volume) = true ↔ _
    rw [decide_eq_true_iff]
    exact Iff.rfl
  · intro h
    subst h
    have hv : dB_to_mult (computeGain_dB l l) = 1 := by
      unfold dB_to_mult computeGain_dB
      rw [sub_self, zero_div, Real.rpow_zero]
    exact ⟨hv, decide_eq_true hv⟩

/-- Witness for C2 at `loudness = target = -23.0` (the defaults). -/
theorem claim_C2_gain_formula_witness :
    (xform_properties ⟨-23, -23⟩).volume = 1 ∧
    (xform_properties ⟨-23, -23⟩).passthrough = true :=
  (claim_C2_gain_formula (-23) (-23)).2.2 rfl

/-- Claim C8: each successful setter raises `reconfigure_sink` exactly
when the newly derived snapshot's `passthrough` differs from the
previously stored snapshot's `passthrough`; a setter that changes only
the gain raises no signal. -/
theorem claim_C8_reconfigure_iff_passthrough_changed (s : ControlState)
    (v : ℝ) :
    ((set_property s .IntegratedLoudness v).2 =
      ((xform_properties
          { s.properties with integrated_loudness_lufs := v }).passthrough
        != s.xformed_properties.passthrough)) ∧
    ((set_property s .TargetLevel v).2 =
      ((xform_properties
          { s.properties with target_level_lufs := v }).passthrough
        != s.xformed_properties.passthrough)) ∧
    ((xform_properties
        { s.properties with integrated_loudness_lufs := v }).passthrough =
          s.xformed_properties.passthrough →
      (set_property s .IntegratedLoudness v).2 = false) ∧
    ((xform_properties
        { s.properties with target_level_lufs := v }).passthrough =
          s.xformed_properties.passthrough →
      (set_property s .TargetLevel v).2 = false) := by
  refine ⟨rfl, rfl, ?_, ?_⟩ <;> intro h <;>
    simp only [set_property, h, bne_self_eq_false]

/-- Witness for C8: re-setting the integrated loudness to its default
value changes neither the gain nor `passthrough`, so no renegotiation
signal is raised. -/
theorem claim_C8_reconfigure_iff_passthrough_changed_witness :
    (set_property ebur128control_init_control .IntegratedLoudness
      (-23)).2 = false := by
  apply (claim_C8_reconfigure_iff_passthrough_changed
    ebur128control_init_control (-23)).2.2.1
  have hv : dB_to_mult (computeGain_dB (-23 : ℝ) (-23)) = 1 := by
    unfold dB_to_mult computeGain_dB
    rw [sub_self, zero_div, Real.rpow_zero]
  show (xform_properties ⟨-23, -23⟩).passthrough = true
  exact decide_eq_true hv

/-- Claim C10: over any byte span of `n` bytes of a buffer and any kernel
sample width `w` (4 for Float32, 8 for Float64), `process<T>` rewrites
exactly the `⌊n / w⌋` complete `w`-byte samples — the result is the
chunkwise-transformed first `⌊n / w⌋ * w` bytes followed by the untouched
rest — the buffer length is unchanged, every byte at offset
`⌊n / w⌋ * w` or beyond is written unchanged, and the result does not
depend on (read) any byte at or beyond that offset. -/
theorem claim_C10_kernel_footprint (tf : List ℕ → List ℕ) (kn : Kernel)
    (w : ℕ) (buf : List ℕ) (n : ℕ) (hk : kn.width = some w)
    (htf : ∀ c : List ℕ, c.length = w → (tf c).length = w)
    (hn : n ≤ buf.length) :
    processBytes tf w buf n =
      ((List.range (n / w)).map fun i =>
        tf ((buf.drop (i * w)).take w)).flatten ++ buf.drop (n / w * w) ∧
    (processBytes tf w buf n).length = buf.length ∧
    (processBytes tf w buf n).drop (n / w * w) = buf.drop (n / w * w) ∧
    processBytes tf w buf n =
      processBytes tf w (buf.take (n / w * w)) n
        ++ buf.drop (n / w * w) := by
  have hK : n / w * w ≤ n := Nat.div_mul_le_self n w
  have hKlen : n / w * w ≤ buf.length := le_trans hK hn
  have hchunk : ∀ i, i < n / w →
      ((buf.drop (i * w)).take w).length = w := by
    intro i hi
    have h1 : (i + 1) * w ≤ n / w * w :=
      Nat.mul_le_mul_right w (Nat.succ_le_of_lt hi)
    have h2 : i * w + w ≤ buf.length := by
      rw [← Nat.succ_mul]; exact le_trans h1 hKlen
    rw [List.length_take, List.length_drop]
    omega
  have hmain := processBytes_eq tf w buf n htf hn
  have lenA : (((List.range (n / w)).map fun i =>
      tf ((buf.drop (i * w)).take w)).flatten).length = n / w * w :=
    flatten_chunks_length _ w _ fun i hi => htf _ (hchunk i hi)
  refine ⟨hmain, ?_, ?_, ?_⟩
  · rw [hmain, List.length_append, lenA, List.length_drop]
    omega
  · rw [hmain, List.drop_left' lenA]
  · have hb' : n / w * w ≤ (buf.take (n / w * w)).length := by
      rw [List.length_take]
      omega
    have htake := kernelBytesIter_eq tf w (buf.take (n / w * w)) htf
      (n / w) hb'
    have hchunks : ∀ i ∈ List.range (n / w),
        tf (((buf.take (n / w * w)).drop (i * w)).take w) =
          tf ((buf.drop (i * w)).take w) := by
      intro i hi
      have hi' : i < n / w := List.mem_range.mp hi
      have h1 : i * w + w ≤ n / w * w := by
        have := Nat.mul_le_mul_right w (Nat.succ_le_of_lt hi')
        rw [Nat.succ_mul] at this
        exact this
      rw [List.take_drop, List.take_drop, List.take_take,
        Nat.min_eq_left h1]
    have hdropnil : (buf.take (n / w * w)).drop (n / w * w) = [] :=
      List.drop_eq_nil_of_le (by rw [List.length_take]; omega)
    rw [hmain, processBytes, htake, List.map_congr_left hchunks,
      hdropnil, List.append_nil]

/-- Witness for C10: a 10-byte span under the Float32 width (4): samples
at offsets 0–3 and 4–7 are rewritten, the remainder bytes at offsets 8, 9
stay untouched. -/
theorem claim_C10_kernel_footprint_witness :
    processBytes (fun c => c.map (· + 100)) 4
      [0, 1, 2, 3, 4, 5, 6, 7, 8, 9] 10 =
      [100, 101, 102, 103, 104, 105, 106, 107] ++ [8, 9] ∧
    (processBytes (fun c => c.map (· + 100)) 4
      [0, 1, 2, 3, 4, 5, 6, 7, 8, 9] 10).drop 8 = [8, 9] := by
  have h := claim_C10_kernel_footprint (fun c => c.map (· + 100))
    .float32 4 [0, 1, 2, 3, 4, 5, 6, 7, 8, 9] 10 rfl
    (fun c hc => by rw [List.length_map, hc]) (by decide)
  refine ⟨?_, ?_⟩
  · rw [h.1]
    decide
  · rw [h.2.2.1]
    decide

/-! ## C9: the torn-snapshot race -/

/-- The snapshot that `set_property(TargetLevel, -13.0)` stores from the
initial state: gain `10 ^ (10 / 20) = 10 ^ (1/2)`, non-passthrough. -/
noncomputable def race_new : XFormedProperties ℝ :=
  xform_properties
    { integrated_loudness_lufs := -23, target_level_lufs := -13 }

/-- A schedule that interleaves the lockless snapshot read between the
writer's two field stores: the reader's loads run after the `volume`
store but before the `passthrough` store. -/
def race_torn_schedule : List Ctx :=
  [.control, .control, .processing, .processing, .control, .control]

theorem race_new_volume_eq : race_new.volume = (10 : ℝ) ^ ((1 : ℝ) / 2) := by
  show dB_to_mult (computeGain_dB (-23) (-13)) = _
  unfold dB_to_mult computeGain_dB
  norm_num

theorem race_new_volume_ne_one : race_new.volume ≠ 1 := by
  rw [race_new_volume_eq]
  have h : (1 : ℝ) < (10 : ℝ) ^ ((1 : ℝ) / 2) :=
    (Real.one_lt_rpow_iff_of_pos (by norm_num)).mpr
      (Or.inl ⟨by norm_num, by norm_num⟩)
  exact ne_of_gt h

theorem race_new_passthrough_false : race_new.passthrough = false := by
  show decide (dB_to_mult (computeGain_dB (-23) (-13)) = neutral_volume)
    = false
  exact decide_eq_false race_new_volume_ne_one

/-- Counterexample to claim C9: `before_transform` reads the shared
snapshot with no lock, so the single exclusive lock around the mutators
does not prevent the processing context from observing a torn pair.  The
new snapshot is exactly what `set_property(TargetLevel, -13.0)` stores
from the initial state; under the torn schedule the processing context
observes the new gain `10^(1/2)` combined with the old `passthrough`
flag `true` — a `DerivedParameters` pair that is neither the old nor the
new snapshot. -/
theorem claim_C9_counterexample_torn_observation :
    (set_property ebur128control_init_control .TargetLevel
        (-13)).1.xformed_properties = race_new ∧
    (raceRun race_new race_torn_schedule
        (raceInit
          ebur128control_init_control.xformed_properties)).bind observed =
      some { volume := race_new.volume, passthrough := true } ∧
    ({ volume := race_new.volume, passthrough := true } :
        XFormedProperties ℝ) ≠
      ebur128control_init_control.xformed_properties ∧
    ({ volume := race_new.volume, passthrough := true } :
        XFormedProperties ℝ) ≠ race_new := by
  refine ⟨rfl, rfl, ?_, ?_⟩
  · intro h
    exact race_new_volume_ne_one (congrArg XFormedProperties.volume h)
  · intro h
    have hp : true = race_new.passthrough :=
      congrArg XFormedProperties.passthrough h
    rw [race_new_passthrough_false] at hp
    exact Bool.noConfusion hp

/-- Claim C9 amended: the mutators do run under the single object lock,
but the processing-context snapshot read runs under no lock; a read
scheduled entirely before (resp. after) the writer's critical section
observes exactly the old (resp. new) snapshot, while a read interleaved
between the two field stores observes the torn pair. -/
theorem claim_C9_amended_lockless_read :
    (raceRun race_new
        [.processing, .processing, .control, .control, .control, .control]
        (raceInit
          ebur128control_init_control.xformed_properties)).bind observed =
      some ebur128control_init_control.xformed_properties ∧
    (raceRun race_new
        [.control, .control, .control, .control, .processing, .processing]
        (raceInit
          ebur128control_init_control.xformed_properties)).bind observed =
      some race_new ∧
    (raceRun race_new race_torn_schedule
        (raceInit
          ebur128control_init_control.xformed_properties)).bind observed =
      some { volume := race_new.volume,
             passthrough :=
               ebur128control_init_control.xformed_properties.passthrough } :=
  ⟨rfl, rfl, rfl⟩

end Ebur128Control
